import Mathlib

/-!
Shallow embedding of the `datahub` Python client SDK
(`datahub/dataset.py`, `datahub/datahub.py`, `datadao_client.py`)
together with theorems checking the natural-language specification
against the code.
-/

namespace DataHubSpec

/-! ### Metadata values

Python metadata dictionaries hold strings, numbers and booleans.
Numbers (including Python floats such as `11.5`) are embedded as rationals. -/

inductive MetaVal where
  | str (s : String)
  | num (q : ℚ)
  | bool (b : Bool)
deriving DecidableEq, Repr

/-! ### Dataset value object (`datahub/dataset.py`) -/

structure Dataset (α β : Type) where
  id : String
  name : String
  features : List α
  labels : List β
  metadata : List (String × MetaVal)

/-- `Dataset.__len__`: the number of samples is the length of `features`. -/
def Dataset.len (d : Dataset α β) : ℕ := d.features.length

/-- `Dataset.split` (`dataset.py` lines 56-82).

The numpy shuffle is an external dependency: it is passed in as the
function `rng` on the index list (for a fixed random seed, numpy's
shuffle is one fixed such function).  `train_ratio` is embedded as a
rational; `int(n_samples * train_ratio)` is `Int.toNat ⌊n * r⌋`
(truncation agrees with the floor for the non-negative ratios of the
claim).  Python list indexing `self.features[i]` is embedded as
`List.getD` with a default; the theorems below are stated under the
in-range conditions in which the two agree. -/
def Dataset.split [Inhabited α] [Inhabited β] (rng : List ℕ → List ℕ)
    (d : Dataset α β) (trainRatio : ℚ) (shuffle : Bool) :
    List α × List β × List α × List β :=
  let nSamples := d.len
  let indices := List.range nSamples
  let indices := if shuffle then rng indices else indices
  let splitIdx := (⌊(nSamples : ℚ) * trainRatio⌋).toNat
  let trainIndices := indices.take splitIdx
  let testIndices := indices.drop splitIdx
  (trainIndices.map (fun i => d.features.getD i default),
   trainIndices.map (fun i => d.labels.getD i default),
   testIndices.map (fun i => d.features.getD i default),
   testIndices.map (fun i => d.labels.getD i default))

/-- Modelled from the spec: `np.random.shuffle` is not part of this
repository; the spec only relies on it being, for a fixed seed, a
deterministic permutation of the index list.  It is modelled by a
Fisher-Yates extraction shuffle driven by a linear congruential
generator seeded by the fixed seed. -/
def lcgNext (s : ℕ) : ℕ := (6364136223846793005 * s + 1442695040888963407) % 2 ^ 64

/-- Fuel-driven extraction shuffle: repeatedly removes a pseudo-randomly
chosen element. -/
def npShuffleGo : ℕ → List ℕ → ℕ → List ℕ
  | _, rem, 0 => rem
  | s, rem, fuel + 1 =>
    if rem.length = 0 then []
    else
      let k := s % rem.length
      rem.getD k 0 :: npShuffleGo (lcgNext s) (rem.take k ++ rem.drop (k + 1)) fuel

/-- Modelled from the spec: the permutation of the index list that
numpy's global generator produces under a fixed random seed. -/
def npShuffle (seed : ℕ) (l : List ℕ) : List ℕ :=
  npShuffleGo seed l l.length

/-- Reading a list back out of its index range: shared helper for the
split round-trip and the accessor theorems. -/
theorem map_getD_range [Inhabited α] (l : List α) (n : ℕ) (h : l.length = n) :
    (List.range n).map (fun i => l.getD i default) = l := by
  subst h
  apply List.ext_getElem
  · simp
  · intro i h1 h2
    simp only [List.getElem_map, List.getElem_range]
    rw [List.getD_eq_getElem?_getD, List.getElem?_eq_getElem (by simpa using h2)]
    rfl

/-- C1: `Dataset.split` returns four lists whose feature parts and label
parts each sum to the number of samples, and the training part has
length `int(n_samples * train_ratio)`.  The shuffle function is any
length-preserving permutation (numpy's in-place shuffle preserves the
length), and the label list has the same length as the feature list
("a Dataset with n samples"). -/
theorem split_partition_sizes [Inhabited α] [Inhabited β]
    (rng : List ℕ → List ℕ) (hrng : ∀ l : List ℕ, (rng l).length = l.length)
    (d : Dataset α β) (r : ℚ) (sh : Bool)
    (_h0 : 0 ≤ r) (h1 : r ≤ 1) (_hlbl : d.labels.length = d.features.length) :
    (d.split rng r sh).1.length + (d.split rng r sh).2.2.1.length = d.len ∧
    (d.split rng r sh).2.1.length + (d.split rng r sh).2.2.2.length = d.len ∧
    (d.split rng r sh).1.length = (⌊(d.len : ℚ) * r⌋).toNat := by
  have hlen : (if sh then rng (List.range d.len) else List.range d.len).length = d.len := by
    cases sh <;> simp [hrng]
  have hk : (⌊(d.len : ℚ) * r⌋).toNat ≤ d.len := by
    have h2 : (d.len : ℚ) * r ≤ (d.len : ℚ) := by nlinarith [Nat.cast_nonneg (α := ℚ) d.len]
    have h3 : ⌊(d.len : ℚ) * r⌋ ≤ (d.len : ℤ) := by
      calc ⌊(d.len : ℚ) * r⌋ ≤ ⌊(d.len : ℚ)⌋ := Int.floor_mono h2
        _ = (d.len : ℤ) := Int.floor_natCast _
    omega
  unfold Dataset.split
  simp only [List.length_map, List.length_take, List.length_drop, hlen]
  omega

/-- C1 witness: the partition-size theorem at a concrete dataset of
five samples with ratio 4/5 and the identity permutation. -/
theorem split_partition_sizes_witness :
    ((Dataset.mk "d" "D" [3, 1, 4, 1, 5] [0, 1, 0, 1, 0] [] : Dataset ℕ ℕ).split
        id (4/5) true).1.length +
      ((Dataset.mk "d" "D" [3, 1, 4, 1, 5] [0, 1, 0, 1, 0] [] : Dataset ℕ ℕ).split
        id (4/5) true).2.2.1.length =
      (Dataset.mk "d" "D" [3, 1, 4, 1, 5] [0, 1, 0, 1, 0] [] : Dataset ℕ ℕ).len ∧
    ((Dataset.mk "d" "D" [3, 1, 4, 1, 5] [0, 1, 0, 1, 0] [] : Dataset ℕ ℕ).split
        id (4/5) true).2.1.length +
      ((Dataset.mk "d" "D" [3, 1, 4, 1, 5] [0, 1, 0, 1, 0] [] : Dataset ℕ ℕ).split
        id (4/5) true).2.2.2.length =
      (Dataset.mk "d" "D" [3, 1, 4, 1, 5] [0, 1, 0, 1, 0] [] : Dataset ℕ ℕ).len ∧
    ((Dataset.mk "d" "D" [3, 1, 4, 1, 5] [0, 1, 0, 1, 0] [] : Dataset ℕ ℕ).split
        id (4/5) true).1.length =
      (⌊((Dataset.mk "d" "D" [3, 1, 4, 1, 5] [0, 1, 0, 1, 0] [] : Dataset ℕ ℕ).len : ℚ) * (4/5)⌋).toNat :=
  split_partition_sizes id (fun _ => rfl) _ (4/5) true (by norm_num) (by norm_num) rfl

/-- C6: for a fixed random seed (hence a fixed shuffle permutation
`npShuffle seed`), `Dataset.split` produces identical outputs on two
datasets holding the same features and labels, with the same
`train_ratio` and `shuffle` arguments: the split depends only on the
seed, the data and the arguments. -/
theorem split_deterministic_fixed_seed [Inhabited α] [Inhabited β]
    (seed : ℕ) (d₁ d₂ : Dataset α β) (r : ℚ) (sh : Bool)
    (hf : d₁.features = d₂.features) (hl : d₁.labels = d₂.labels) :
    d₁.split (npShuffle seed) r sh = d₂.split (npShuffle seed) r sh := by
  unfold Dataset.split Dataset.len
  rw [hf, hl]

/-- C6 witness: two runs over the same data (held in two dataset
objects differing only in name and metadata) with seed 7 agree. -/
theorem split_deterministic_fixed_seed_witness :
    (Dataset.mk "a" "A" [10, 20, 30] [0, 1, 1] [] : Dataset ℕ ℕ).split
        (npShuffle 7) (4/5) true =
      (Dataset.mk "a" "B" [10, 20, 30] [0, 1, 1] [("k", .str "v")] : Dataset ℕ ℕ).split
        (npShuffle 7) (4/5) true :=
  split_deterministic_fixed_seed 7 _ _ (4/5) true rfl rfl

/-- C8: with `shuffle=False` the training partition is the prefix and
the test partition the suffix of the original data: concatenating them
gives back exactly the original features and labels. -/
theorem split_no_shuffle_roundtrip [Inhabited α] [Inhabited β]
    (rng : List ℕ → List ℕ) (d : Dataset α β) (r : ℚ)
    (h : d.labels.length = d.features.length) :
    (d.split rng r false).1 ++ (d.split rng r false).2.2.1 = d.features ∧
    (d.split rng r false).2.1 ++ (d.split rng r false).2.2.2 = d.labels := by
  unfold Dataset.split Dataset.len
  simp only [Bool.false_eq_true, if_false]
  constructor
  · rw [← List.map_append, List.take_append_drop]
    exact map_getD_range d.features _ rfl
  · rw [← List.map_append, List.take_append_drop]
    exact map_getD_range d.labels _ h

/-- C8 witness: the round-trip at a concrete four-sample dataset with
ratio 1/2. -/
theorem split_no_shuffle_roundtrip_witness :
    ((Dataset.mk "d" "D" [5, 6, 7, 8] [1, 0, 1, 0] [] : Dataset ℕ ℕ).split
        id (1/2) false).1 ++
      ((Dataset.mk "d" "D" [5, 6, 7, 8] [1, 0, 1, 0] [] : Dataset ℕ ℕ).split
        id (1/2) false).2.2.1 =
      [5, 6, 7, 8] ∧
    ((Dataset.mk "d" "D" [5, 6, 7, 8] [1, 0, 1, 0] [] : Dataset ℕ ℕ).split
        id (1/2) false).2.1 ++
      ((Dataset.mk "d" "D" [5, 6, 7, 8] [1, 0, 1, 0] [] : Dataset ℕ ℕ).split
        id (1/2) false).2.2.2 =
      [1, 0, 1, 0] :=
  split_no_shuffle_roundtrip id _ (1/2) rfl

/-! ### High-level facade (`datahub/datahub.py`) -/

/-- Python truthiness of an optional string: `None` and `""` are falsy. -/
def pyTruthy : Option String → Bool
  | none => false
  | some s => !(s == "")

/-- Python `a or b` on optional strings. -/
def pyOr (a b : Option String) : Option String := if pyTruthy a then a else b

structure DataHubClient where
  api_key : Option String
  base_url : String
  contentTypeHeader : String
  authHeader : String
deriving DecidableEq, Repr

/-- `DataHub.__init__` (`datahub.py` lines 12-28).  The environment
lookup `os.environ.get("DATAHUB_API_KEY")` is passed in as `envApiKey`.
The missing-key case only prints a warning; the constructor has no
raising path, so it is embedded as a total function. -/
def DataHubClient.init (api_key envApiKey : Option String) (base_url : String) :
    DataHubClient :=
  let key := pyOr api_key envApiKey
  { api_key := key
    base_url := base_url
    contentTypeHeader := "application/json"
    authHeader := if pyTruthy key then "Bearer " ++ key.getD "" else "" }

instance : Inhabited MetaVal := ⟨.str ""⟩

/-- `DataHub.load_dataset` (`datahub.py` lines 80-133): mock data for
ids "dataset-001" and "dataset-002", `None` otherwise. -/
def load_dataset (dataset_id : String) : Option (Dataset MetaVal MetaVal) :=
  if dataset_id == "dataset-001" then
    some ⟨"dataset-001", "MNIST Handwritten Digits", [], [],
      [("description", .str "Dataset of handwritten digits for image classification"),
       ("owner", .str "0x1234567890abcdef1234567890abcdef12345678"),
       ("size", .num (23/2)),
       ("samples", .num 70000),
       ("dataType", .str "image"),
       ("license", .str "MIT"),
       ("price", .num 10),
       ("created", .str "2023-05-15T10:30:00Z"),
       ("validated", .bool true)]⟩
  else if dataset_id == "dataset-002" then
    some ⟨"dataset-002", "Twitter Sentiment Analysis", [], [],
      [("description", .str "Labeled tweets for sentiment analysis"),
       ("owner", .str "0x2345678901abcdef2345678901abcdef23456789"),
       ("size", .num (23/10)),
       ("samples", .num 50000),
       ("dataType", .str "text"),
       ("license", .str "CC BY-SA 4.0"),
       ("price", .num 5),
       ("created", .str "2023-06-22T14:45:00Z"),
       ("validated", .bool true)]⟩
  else none

/-- C7: `load_dataset` returns a dataset exactly for the two mock ids,
that dataset has empty features and labels, and every other id yields
`None` (the function is total, so no exception can escape). -/
theorem load_dataset_mock_only (dataset_id : String) :
    ((load_dataset dataset_id).isSome ↔
      dataset_id = "dataset-001" ∨ dataset_id = "dataset-002") ∧
    (load_dataset dataset_id).elim True (fun ds => ds.features = [] ∧ ds.labels = []) := by
  unfold load_dataset
  by_cases h1 : dataset_id = "dataset-001" <;> by_cases h2 : dataset_id = "dataset-002" <;>
    simp [h1, h2]

/-- C9: constructing the facade with no api key argument and no
environment key completes (the embedding is a total function) with
`api_key = None` and an empty `Authorization` header. -/
theorem init_without_key_never_raises (base_url : String) :
    (DataHubClient.init none none base_url).api_key = none ∧
    (DataHubClient.init none none base_url).authHeader = "" :=
  ⟨rfl, rfl⟩

/-! ### Tuple-to-mapping relabeling (`datadao_client.py`)

Each `get_X` accessor calls the contract, receives a fixed-order tuple
(embedded as a `List V` of the documented length) and relabels it into
an insertion-ordered dictionary (embedded as an association list).
Python tuple indexing `t[i]` is embedded as `List.getD`; the theorems
are stated under the length condition of the contract's return type,
where the two agree. -/

/-- The keys of `get_task` (`datadao_client.py` lines 741-761), in
dictionary insertion order. -/
def taskKeys : List String :=
  ["id", "creator", "title", "description", "task_type", "status", "reward",
   "review_reward", "required_submissions", "required_validations", "deadline",
   "privacy_level", "access_conditions_cid", "data_cid", "instructions_cid",
   "created_at", "completed_at", "submission_count", "validated_submission_count"]

/-- The relabeling performed by `get_task` on the contract tuple. -/
def get_task_mapping [Inhabited V] (task : List V) : List (String × V) :=
  [("id", task.getD 0 default),
   ("creator", task.getD 1 default),
   ("title", task.getD 2 default),
   ("description", task.getD 3 default),
   ("task_type", task.getD 4 default),
   ("status", task.getD 5 default),
   ("reward", task.getD 6 default),
   ("review_reward", task.getD 7 default),
   ("required_submissions", task.getD 8 default),
   ("required_validations", task.getD 9 default),
   ("deadline", task.getD 10 default),
   ("privacy_level", task.getD 11 default),
   ("access_conditions_cid", task.getD 12 default),
   ("data_cid", task.getD 13 default),
   ("instructions_cid", task.getD 14 default),
   ("created_at", task.getD 15 default),
   ("completed_at", task.getD 16 default),
   ("submission_count", task.getD 17 default),
   ("validated_submission_count", task.getD 18 default)]

/-- The keys of `get_dataset` (lines 776-793), in insertion order. -/
def datasetKeys : List String :=
  ["id", "name", "description", "owner", "metadata_cid", "data_cid",
   "is_encrypted", "access_conditions_cid", "access_type", "price",
   "created_at", "has_filecoin_deal", "deal_id", "validated", "usage_count",
   "revenue"]

/-- The relabeling performed by `get_dataset` on the contract tuple. -/
def get_dataset_mapping [Inhabited V] (dataset : List V) : List (String × V) :=
  [("id", dataset.getD 0 default),
   ("name", dataset.getD 1 default),
   ("description", dataset.getD 2 default),
   ("owner", dataset.getD 3 default),
   ("metadata_cid", dataset.getD 4 default),
   ("data_cid", dataset.getD 5 default),
   ("is_encrypted", dataset.getD 6 default),
   ("access_conditions_cid", dataset.getD 7 default),
   ("access_type", dataset.getD 8 default),
   ("price", dataset.getD 9 default),
   ("created_at", dataset.getD 10 default),
   ("has_filecoin_deal", dataset.getD 11 default),
   ("deal_id", dataset.getD 12 default),
   ("validated", dataset.getD 13 default),
   ("usage_count", dataset.getD 14 default),
   ("revenue", dataset.getD 15 default)]

/-- The keys of `get_member_info` (lines 208-215), in insertion order. -/
def memberKeys : List String :=
  ["exists", "tier", "reputation", "staked_amount", "joined_at",
   "last_activity_at"]

/-- The relabeling performed by `get_member_info` on the contract tuple. -/
def get_member_info_mapping [Inhabited V] (member : List V) : List (String × V) :=
  [("exists", member.getD 0 default),
   ("tier", member.getD 1 default),
   ("reputation", member.getD 2 default),
   ("staked_amount", member.getD 3 default),
   ("joined_at", member.getD 4 default),
   ("last_activity_at", member.getD 5 default)]

/-- The keys of `get_proposal` (lines 808-821), in insertion order. -/
def proposalKeys : List String :=
  ["id", "proposer", "title", "description", "proposal_type", "status",
   "start_time", "end_time", "for_votes", "against_votes", "abstain_votes",
   "executed"]

/-- The relabeling performed by `get_proposal` on the contract tuple. -/
def get_proposal_mapping [Inhabited V] (proposal : List V) : List (String × V) :=
  [("id", proposal.getD 0 default),
   ("proposer", proposal.getD 1 default),
   ("title", proposal.getD 2 default),
   ("description", proposal.getD 3 default),
   ("proposal_type", proposal.getD 4 default),
   ("status", proposal.getD 5 default),
   ("start_time", proposal.getD 6 default),
   ("end_time", proposal.getD 7 default),
   ("for_votes", proposal.getD 8 default),
   ("against_votes", proposal.getD 9 default),
   ("abstain_votes", proposal.getD 10 default),
   ("executed", proposal.getD 11 default)]

/-- The keys of `get_dao_stats` (lines 721-726), in insertion order. -/
def daoStatsKeys : List String :=
  ["member_count", "task_count", "dataset_count", "proposal_count"]

/-- The relabeling performed by `get_dao_stats` on the contract tuple. -/
def get_dao_stats_mapping [Inhabited V] (stats : List V) : List (String × V) :=
  [("member_count", stats.getD 0 default),
   ("task_count", stats.getD 1 default),
   ("dataset_count", stats.getD 2 default),
   ("proposal_count", stats.getD 3 default)]

/-- C2: for every contract tuple of the documented arity, each
accessor's mapping carries exactly the documented keys in order and its
values are exactly the tuple's elements in index order, with nothing
dropped, duplicated or reordered. -/
theorem accessor_mappings_preserve_tuples {V : Type} [Inhabited V]
    (task dataset member proposal stats : List V)
    (ht : task.length = 19) (hd : dataset.length = 16) (hm : member.length = 6)
    (hp : proposal.length = 12) (hs : stats.length = 4) :
    ((get_task_mapping task).map Prod.fst = taskKeys ∧
     (get_task_mapping task).map Prod.snd = task) ∧
    ((get_dataset_mapping dataset).map Prod.fst = datasetKeys ∧
     (get_dataset_mapping dataset).map Prod.snd = dataset) ∧
    ((get_member_info_mapping member).map Prod.fst = memberKeys ∧
     (get_member_info_mapping member).map Prod.snd = member) ∧
    ((get_proposal_mapping proposal).map Prod.fst = proposalKeys ∧
     (get_proposal_mapping proposal).map Prod.snd = proposal) ∧
    ((get_dao_stats_mapping stats).map Prod.fst = daoStatsKeys ∧
     (get_dao_stats_mapping stats).map Prod.snd = stats) := by
  refine ⟨⟨rfl, ?_⟩, ⟨rfl, ?_⟩, ⟨rfl, ?_⟩, ⟨rfl, ?_⟩, ⟨rfl, ?_⟩⟩
  · show (List.range 19).map (fun i => task.getD i default) = task
    exact map_getD_range task 19 ht
  · show (List.range 16).map (fun i => dataset.getD i default) = dataset
    exact map_getD_range dataset 16 hd
  · show (List.range 6).map (fun i => member.getD i default) = member
    exact map_getD_range member 6 hm
  · show (List.range 12).map (fun i => proposal.getD i default) = proposal
    exact map_getD_range proposal 12 hp
  · show (List.range 4).map (fun i => stats.getD i default) = stats
    exact map_getD_range stats 4 hs

/-- C2 witness: the accessor theorem at concrete tuples `0, 1, ...` of
the documented arities. -/
theorem accessor_mappings_preserve_tuples_witness :
    ((get_task_mapping (List.range 19)).map Prod.fst = taskKeys ∧
     (get_task_mapping (List.range 19)).map Prod.snd = List.range 19) ∧
    ((get_dataset_mapping (List.range 16)).map Prod.fst = datasetKeys ∧
     (get_dataset_mapping (List.range 16)).map Prod.snd = List.range 16) ∧
    ((get_member_info_mapping (List.range 6)).map Prod.fst = memberKeys ∧
     (get_member_info_mapping (List.range 6)).map Prod.snd = List.range 6) ∧
    ((get_proposal_mapping (List.range 12)).map Prod.fst = proposalKeys ∧
     (get_proposal_mapping (List.range 12)).map Prod.snd = List.range 12) ∧
    ((get_dao_stats_mapping (List.range 4)).map Prod.fst = daoStatsKeys ∧
     (get_dao_stats_mapping (List.range 4)).map Prod.snd = List.range 4) :=
  accessor_mappings_preserve_tuples (List.range 19) (List.range 16) (List.range 6)
    (List.range 12) (List.range 4) rfl rfl rfl rfl rfl

/-! ### Contract client (`datadao_client.py`)

The blockchain, the deployed contracts and the Lighthouse storage API
are external collaborators; they are embedded as an environment of
response functions.  Every network or state-changing step an operation
performs is recorded in a trace of `Effect`s, so "raises before any
network step" is "returns the error with an empty trace". -/

/-- A value crossing the contract boundary (tuple element or call
argument). -/
inductive Val where
  | s (v : String)
  | i (v : ℤ)
  | b (v : Bool)
deriving DecidableEq, Repr

instance : Inhabited Val := ⟨.i 0⟩

def Val.asInt : Val → ℤ
  | .i v => v
  | _ => 0

def Val.asStr : Val → String
  | .s v => v
  | _ => ""

def Val.asBool : Val → Bool
  | .b v => v
  | _ => false

/-- A receipt log entry: its emitting address, and — when web3's
`process_log` would succeed on it — the event name it parses as
together with the integer id argument of that event. -/
structure Log where
  address : String
  event : Option (String × ℤ)
deriving DecidableEq, Repr

structure Receipt where
  logs : List Log
deriving DecidableEq, Repr

/-- One observable external step.  `sendTx` stands for the whole
build / sign / send / wait sequence of `_build_and_send_tx`. -/
inductive Effect where
  | sendTx (contract fn : String) (args : List Val)
  | contractRead (contract fn : String)
  | upload (isFile encrypted : Bool)
  | download
  | decryptDownload
  | getJwt
deriving DecidableEq, Repr

structure Account where
  address : String
  key : String
deriving DecidableEq, Repr

/-- The client's configuration state (`DataDAOClient.__init__`). -/
structure Client where
  account : Option Account
  lighthouse_api_key : Option String
  contract_registry_address : Option String
  contracts : List (String × String)
deriving DecidableEq, Repr

/-- Responses of the external collaborators: read-only contract call
results, transaction receipts per (contract, function), the CID the
Lighthouse upload response carries (`None` when the response has no
`Hash`), and download content. -/
structure Env where
  call : String → String → List Val
  receipt : String → String → Receipt
  uploadCid : Option String
  downloadContent : String

/-- A bound contract function about to be transacted. -/
structure ContractFunction where
  contract : String
  fn : String
  args : List Val
deriving DecidableEq, Repr

/-- Result of an operation: the Python return value or the raised
error, together with the trace of external steps performed. -/
abbrev OpRes (α : Type) := Except String α × List Effect

/-- `_get_contract` (lines 118-130). -/
def Client.getContract (c : Client) (name : String) : Except String String :=
  match c.contracts.find? (fun p => p.1 == name) with
  | none => .error ("Contract " ++ name ++ " not initialized")
  | some p => .ok p.2

/-- `_build_and_send_tx` (lines 132-156): raises when no account is
configured — before the nonce or gas price is fetched — and otherwise
performs the transaction and returns the receipt the environment
provides for this (contract, function) call. -/
def Client.buildAndSendTx (c : Client) (env : Env) (f : ContractFunction) :
    OpRes Receipt :=
  match c.account with
  | none => (.error "Private key not provided", [])
  | some _ => (.ok (env.receipt f.contract f.fn), [.sendTx f.contract f.fn f.args])

/-- Python's `str.lower()` on the character list (hex addresses are
ASCII). -/
def pyLower (s : String) : String := ⟨s.data.map Char.toLower⟩

/-- Whether a log would be consumed by the scan: it is from the
expected address (compared case-insensitively) and parses as the
expected event. -/
def logMatches (contractAddr eventName : String) (log : Log) : Bool :=
  pyLower log.address == pyLower contractAddr &&
    match log.event with
    | some (n, _) => n == eventName
    | none => false

/-- The event-log scan shared by `create_task` (lines 299-308),
`submit_to_task`, `create_dataset` and `create_proposal`: walk the
logs; for a log from the expected address try to parse the expected
event, stop at the first success, silently skip any log that fails to
parse. -/
def extractEventId (logs : List Log) (contractAddr eventName : String) : Option ℤ :=
  match logs with
  | [] => none
  | log :: rest =>
    if pyLower log.address == pyLower contractAddr then
      match log.event with
      | some (n, eventId) =>
        if n == eventName then some eventId
        else extractEventId rest contractAddr eventName
      | none => extractEventId rest contractAddr eventName
    else extractEventId rest contractAddr eventName

/-- The scan is the id of the first matching log. -/
theorem extractEventId_eq_find (logs : List Log) (a e : String) :
    extractEventId logs a e =
      (logs.find? (logMatches a e)).bind (fun log => log.event.map Prod.snd) := by
  induction logs with
  | nil => rfl
  | cons log rest ih =>
    rw [extractEventId, List.find?]
    by_cases haddr : (pyLower log.address == pyLower a) = true
    · cases hev : log.event with
      | none => simp [logMatches, haddr, hev, ih]
      | some p =>
        by_cases hn : (p.1 == e) = true
        · simp [logMatches, haddr, hev, hn]
        · simp [logMatches, haddr, hev, hn, ih]
    · simp [logMatches, haddr, ih]

structure JoinDaoResult where
  approve_tx : Receipt
  join_tx : Receipt
deriving DecidableEq, Repr

/-- `join_dao` (lines 160-186): look up both contracts, approve the
staked amount for the membership manager, then call `joinDAO`. -/
def Client.join_dao (c : Client) (env : Env) (amount : ℤ) : OpRes JoinDaoResult :=
  match c.getContract "MembershipManager" with
  | .error e => (.error e, [])
  | .ok mmAddr =>
    match c.getContract "DataToken" with
    | .error e => (.error e, [])
    | .ok _dt =>
      match c.buildAndSendTx env ⟨"DataToken", "approve", [.s mmAddr, .i amount]⟩ with
      | (.error e, t1) => (.error e, t1)
      | (.ok approveTx, t1) =>
        match c.buildAndSendTx env ⟨"MembershipManager", "joinDAO", [.i amount]⟩ with
        | (.error e, t2) => (.error e, t1 ++ t2)
        | (.ok joinTx, t2) => (.ok ⟨approveTx, joinTx⟩, t1 ++ t2)

structure CreateTaskResult where
  approve_tx : Receipt
  create_tx : Receipt
  task_id : Option ℤ
deriving DecidableEq, Repr

/-- `create_task` (lines 238-314): compute the total reward
`reward * required_submissions + review_reward * required_submissions *
required_validations`, approve it for the task manager, call
`createTask`, then scan the creation receipt for `TaskCreated`. -/
def Client.create_task (c : Client) (env : Env)
    (title description : String)
    (task_type reward review_reward required_submissions required_validations
      deadline privacy_level : ℤ)
    (access_conditions_cid instructions_cid : String) : OpRes CreateTaskResult :=
  match c.getContract "TaskManager" with
  | .error e => (.error e, [])
  | .ok tmAddr =>
    match c.getContract "DataToken" with
    | .error e => (.error e, [])
    | .ok _dt =>
      let total_reward := reward * required_submissions +
        review_reward * required_submissions * required_validations
      match c.buildAndSendTx env ⟨"DataToken", "approve", [.s tmAddr, .i total_reward]⟩ with
      | (.error e, t1) => (.error e, t1)
      | (.ok approveTx, t1) =>
        match c.buildAndSendTx env ⟨"TaskManager", "createTask",
            [.s title, .s description, .i task_type, .i reward, .i review_reward,
             .i required_submissions, .i required_validations, .i deadline,
             .i privacy_level, .s access_conditions_cid, .s instructions_cid]⟩ with
        | (.error e, t2) => (.error e, t1 ++ t2)
        | (.ok createTx, t2) =>
          (.ok ⟨approveTx, createTx, extractEventId createTx.logs tmAddr "TaskCreated"⟩,
           t1 ++ t2)

structure CreateDatasetResult where
  create_tx : Receipt
  dataset_id : Option ℤ
deriving DecidableEq, Repr

/-- `create_dataset` (lines 444-502): a single `createDataset`
transaction followed by the `DatasetCreated` log scan. -/
def Client.create_dataset (c : Client) (env : Env)
    (name description metadata_cid data_cid : String) (is_encrypted : Bool)
    (access_conditions_cid : String) (access_type price : ℤ) (task_ids : List ℤ) :
    OpRes CreateDatasetResult :=
  match c.getContract "DatasetRegistry" with
  | .error e => (.error e, [])
  | .ok drAddr =>
    match c.buildAndSendTx env ⟨"DatasetRegistry", "createDataset",
        [.s name, .s description, .s metadata_cid, .s data_cid, .b is_encrypted,
         .s access_conditions_cid, .i access_type, .i price] ++ task_ids.map .i⟩ with
    | (.error e, t) => (.error e, t)
    | (.ok createTx, t) =>
      (.ok ⟨createTx, extractEventId createTx.logs drAddr "DatasetCreated"⟩, t)

structure CreateProposalResult where
  propose_tx : Receipt
  proposal_id : Option ℤ
deriving DecidableEq, Repr

/-- `create_proposal` (lines 611-663): a single `propose` transaction
followed by the `ProposalCreated` log scan.  Calldata bytes are
embedded as strings. -/
def Client.create_proposal (c : Client) (env : Env)
    (title description : String) (proposal_type : ℤ) (targets : List String)
    (values : List ℤ) (calldatas signatures : List String) :
    OpRes CreateProposalResult :=
  match c.getContract "GovernanceModule" with
  | .error e => (.error e, [])
  | .ok gmAddr =>
    match c.buildAndSendTx env ⟨"GovernanceModule", "propose",
        [.s title, .s description, .i proposal_type] ++ targets.map .s ++
          values.map .i ++ calldatas.map .s ++ signatures.map .s⟩ with
    | (.error e, t) => (.error e, t)
    | (.ok proposeTx, t) =>
      (.ok ⟨proposeTx, extractEventId proposeTx.logs gmAddr "ProposalCreated"⟩, t)

structure PurchaseResult where
  approve_tx : Receipt
  purchase_tx : Receipt
deriving DecidableEq, Repr

/-- `purchase_dataset_access` (lines 504-538): read the dataset record
(a plain `.call()`, not a transaction) to learn its price at index 9,
approve that amount for the registry, then call `purchaseAccess`. -/
def Client.purchase_dataset_access (c : Client) (env : Env)
    (dataset_id duration : ℤ) : OpRes PurchaseResult :=
  match c.getContract "DatasetRegistry" with
  | .error e => (.error e, [])
  | .ok drAddr =>
    match c.getContract "DataToken" with
    | .error e => (.error e, [])
    | .ok _dt =>
      let dataset := env.call "DatasetRegistry" "getDataset"
      let readT := [Effect.contractRead "DatasetRegistry" "getDataset"]
      let price := (dataset.getD 9 default).asInt
      match c.buildAndSendTx env ⟨"DataToken", "approve", [.s drAddr, .i price]⟩ with
      | (.error e, t1) => (.error e, readT ++ t1)
      | (.ok approveTx, t1) =>
        match c.buildAndSendTx env ⟨"DatasetRegistry", "purchaseAccess",
            [.i dataset_id, .i duration]⟩ with
        | (.error e, t2) => (.error e, readT ++ t1 ++ t2)
        | (.ok purchaseTx, t2) => (.ok ⟨approveTx, purchaseTx⟩, readT ++ t1 ++ t2)

/-- Python truthiness of an optional dictionary-like value: `None` and
an empty dictionary are falsy. -/
def pyTruthyDict : Option (List (String × String)) → Bool
  | none => false
  | some l => !l.isEmpty

structure SubmitResult where
  upload_cid : String
  submit_tx : Receipt
  submission_id : Option ℤ
deriving DecidableEq, Repr

/-- `submit_to_task` (lines 316-417): check the Lighthouse key, the
data arguments and the encryption preconditions, upload (fetching a
JWT first when encrypting; the encrypted branches read
`self.account.key`, an AttributeError when no account is set), check
the returned CID, then send `submitToTask` and scan for
`SubmissionCreated`. -/
def Client.submit_to_task (c : Client) (env : Env) (task_id : ℤ)
    (data_file_path data_text : Option String) (encrypt : Bool)
    (access_conditions : Option (List (String × String))) : OpRes SubmitResult :=
  if !(pyTruthy c.lighthouse_api_key) then
    (.error "Lighthouse API key not provided", [])
  else if !(pyTruthy data_file_path) && !(pyTruthy data_text) then
    (.error "Either data_file_path or data_text must be provided", [])
  else if encrypt && !(pyTruthyDict access_conditions) then
    (.error "Access conditions must be provided for encrypted submissions", [])
  else if encrypt && c.account.isNone then
    (.error "AttributeError: account is None", [])
  else
    let isFile := pyTruthy data_file_path
    let uploadT : List Effect :=
      if encrypt then [.getJwt, .upload isFile true] else [.upload isFile false]
    if !(pyTruthy env.uploadCid) then
      (.error "Failed to upload to Lighthouse", uploadT)
    else
      let cid := env.uploadCid.getD ""
      match c.getContract "TaskManager" with
      | .error e => (.error e, uploadT)
      | .ok tmAddr =>
        match c.buildAndSendTx env ⟨"TaskManager", "submitToTask",
            [.i task_id, .s cid, .b encrypt]⟩ with
        | (.error e, t) => (.error e, uploadT ++ t)
        | (.ok submitTx, t) =>
          (.ok ⟨cid, submitTx, extractEventId submitTx.logs tmAddr "SubmissionCreated"⟩,
           uploadT ++ t)

/-- The pay-per-use branch of `access_dataset` (lines 569-585): approve
the dataset's price for the registry and record the usage through the
DAO core. -/
def Client.recordUsageStep (c : Client) (env : Env) (drAddr : String)
    (dataset : List Val) (dataset_id : ℤ) (acct : Account) : OpRes Unit :=
  if (dataset.getD 8 default).asInt == 4 then
    match c.getContract "DataToken" with
    | .error e => (.error e, [])
    | .ok _dt =>
      match c.buildAndSendTx env ⟨"DataToken", "approve",
          [.s drAddr, .i (dataset.getD 9 default).asInt]⟩ with
      | (.error e, t) => (.error e, t)
      | (.ok _aTx, t1) =>
        match c.getContract "DataDAOCore" with
        | .error e => (.error e, t1)
        | .ok _core =>
          match c.buildAndSendTx env ⟨"DataDAOCore", "recordDatasetUsage",
              [.i dataset_id, .s acct.address]⟩ with
          | (.error e, t2) => (.error e, t1 ++ t2)
          | (.ok _rTx, t2) => (.ok (), t1 ++ t2)
  else (.ok (), [])

structure AccessResult where
  dataset_id : ℤ
  data_cid : String
  content : String
deriving DecidableEq, Repr

/-- `access_dataset` (lines 540-607): check the Lighthouse key, look up
the registry, check access (reads `self.account.address`), read the
dataset record, possibly record a pay-per-use usage, then download
(decrypting when the record says so). -/
def Client.access_dataset (c : Client) (env : Env) (dataset_id : ℤ) :
    OpRes AccessResult :=
  if !(pyTruthy c.lighthouse_api_key) then
    (.error "Lighthouse API key not provided", [])
  else
    match c.getContract "DatasetRegistry" with
    | .error e => (.error e, [])
    | .ok drAddr =>
      match c.account with
      | none => (.error "AttributeError: account is None", [])
      | some acct =>
        let t1 := [Effect.contractRead "DatasetRegistry" "hasAccess"]
        let hasAccess := ((env.call "DatasetRegistry" "hasAccess").getD 0 default).asBool
        if !hasAccess then
          (.error ("No access to dataset " ++ toString dataset_id), t1)
        else
          let dataset := env.call "DatasetRegistry" "getDataset"
          let t2 := t1 ++ [Effect.contractRead "DatasetRegistry" "getDataset"]
          let data_cid := (dataset.getD 5 default).asStr
          let is_encrypted := (dataset.getD 6 default).asBool
          match c.recordUsageStep env drAddr dataset dataset_id acct with
          | (.error e, t3) => (.error e, t2 ++ t3)
          | (.ok _, t3) =>
            let downloadT : List Effect :=
              if is_encrypted then [.getJwt, .decryptDownload] else [.download]
            (.ok ⟨dataset_id, data_cid, env.downloadContent⟩, t2 ++ t3 ++ downloadT)

/-! ### Contract initialization (`_init_contracts`, lines 54-88) -/

/-- The zero address the registry returns for unknown names. -/
def zeroAddress : String := "0x0000000000000000000000000000000000000000"

/-- Python dict assignment `d[k] = v`: update in place when the key
exists, else append. -/
def dictInsert (k v : String) (l : List (String × String)) : List (String × String) :=
  if l.any (fun p => p.1 == k) then
    l.map (fun p => if p.1 == k then (k, v) else p)
  else l ++ [(k, v)]

/-- The fixed list of names `_init_contracts` resolves (lines 68-77). -/
def contractNames : List String :=
  ["DataDAOCore", "MembershipManager", "TaskManager", "DatasetRegistry",
   "RewardDistributor", "DealClient", "DataToken", "GovernanceModule"]

/-- The registry lookups of `_init_contracts`: for each name the
environment yields the resolved address, or `none` when the lookup (or
the contract construction) raises — which the source prints and
skips. -/
structure RegistryEnv where
  resolve : String → Option String

/-- One iteration of the `for name in contract_names` loop (lines
79-88): skip on a raised lookup, store the contract only for a
non-zero address. -/
def initStep (renv : RegistryEnv) (acc : List (String × String)) (name : String) :
    List (String × String) :=
  match renv.resolve name with
  | none => acc
  | some addr => if addr ≠ zeroAddress then dictInsert name addr acc else acc

/-- `_init_contracts` (lines 54-88): raise when no registry address is
configured, store the registry itself, then resolve each name in
order. -/
def Client.initContracts (c : Client) (renv : RegistryEnv) : Except String Client :=
  if !(pyTruthy c.contract_registry_address) then
    .error "Contract registry address not provided"
  else
    let regAddr := c.contract_registry_address.getD ""
    let cs := dictInsert "ContractRegistry" regAddr c.contracts
    .ok { c with contracts := contractNames.foldl (initStep renv) cs }

/-- C3: every operation requiring configuration raises the documented
error immediately when it is absent, with an empty effect trace (no
network or state-changing step attempted): `_build_and_send_tx` with no
account, `submit_to_task` and `access_dataset` with no Lighthouse API
key, and `_get_contract` for an uninitialized contract name. -/
theorem missing_config_raises_immediately :
    (∀ (c : Client) (env : Env) (f : ContractFunction), c.account = none →
      c.buildAndSendTx env f = (.error "Private key not provided", [])) ∧
    (∀ (c : Client) (env : Env) (task_id : ℤ) (fp txt : Option String)
      (encrypt : Bool) (ac : Option (List (String × String))),
      pyTruthy c.lighthouse_api_key = false →
      c.submit_to_task env task_id fp txt encrypt ac =
        (.error "Lighthouse API key not provided", [])) ∧
    (∀ (c : Client) (env : Env) (dataset_id : ℤ),
      pyTruthy c.lighthouse_api_key = false →
      c.access_dataset env dataset_id =
        (.error "Lighthouse API key not provided", [])) ∧
    (∀ (c : Client) (name : String),
      c.contracts.find? (fun p => p.1 == name) = none →
      c.getContract name = .error ("Contract " ++ name ++ " not initialized")) := by
  refine ⟨?_, ?_, ?_, ?_⟩
  · intro c env f hacc
    unfold Client.buildAndSendTx
    rw [hacc]
  · intro c env tid fp txt enc ac hkey
    unfold Client.submit_to_task
    rw [hkey]
    rfl
  · intro c env did hkey
    unfold Client.access_dataset
    rw [hkey]
    rfl
  · intro c name hfind
    unfold Client.getContract
    rw [hfind]

/-- C3 witness: the theorem at a concrete unconfigured client. -/
theorem missing_config_raises_immediately_witness :
    ((Client.mk none (some "lk") none []).buildAndSendTx
        ⟨fun _ _ => [], fun _ _ => ⟨[]⟩, none, ""⟩ ⟨"DataToken", "approve", []⟩ =
      (.error "Private key not provided", [])) ∧
    ((Client.mk (some ⟨"0xA", "pk"⟩) none none []).submit_to_task
        ⟨fun _ _ => [], fun _ _ => ⟨[]⟩, none, ""⟩ 1 (some "f.csv") none false none =
      (.error "Lighthouse API key not provided", [])) ∧
    ((Client.mk (some ⟨"0xA", "pk"⟩) none none []).access_dataset
        ⟨fun _ _ => [], fun _ _ => ⟨[]⟩, none, ""⟩ 1 =
      (.error "Lighthouse API key not provided", [])) ∧
    ((Client.mk none none none []).getContract "TaskManager" =
      .error ("Contract " ++ "TaskManager" ++ " not initialized")) :=
  ⟨missing_config_raises_immediately.1 _ _ _ rfl,
   missing_config_raises_immediately.2.1 _ _ 1 (some "f.csv") none false none rfl,
   missing_config_raises_immediately.2.2.1 _ _ 1 rfl,
   missing_config_raises_immediately.2.2.2 _ "TaskManager" rfl⟩

/-- C5: under the configuration required to run at all, `create_task`
performs exactly two transactions, first the token approval for
`reward * required_submissions + review_reward * required_submissions *
required_validations` and then `createTask`; `join_dao` and
`purchase_dataset_access` likewise place their approval strictly
before the action transaction (the purchase is preceded only by the
read-only `getDataset` call that determines the price). -/
theorem operations_tx_order :
    (∀ (c : Client) (env : Env) (tmAddr dtAddr : String) (acct : Account)
      (title descr : String) (tt rew rr rs rv dl pl : ℤ) (acc ins : String),
      c.getContract "TaskManager" = .ok tmAddr →
      c.getContract "DataToken" = .ok dtAddr →
      c.account = some acct →
      (c.create_task env title descr tt rew rr rs rv dl pl acc ins).2 =
        [.sendTx "DataToken" "approve" [.s tmAddr, .i (rew * rs + rr * rs * rv)],
         .sendTx "TaskManager" "createTask"
           [.s title, .s descr, .i tt, .i rew, .i rr, .i rs, .i rv, .i dl, .i pl,
            .s acc, .s ins]]) ∧
    (∀ (c : Client) (env : Env) (mmAddr dtAddr : String) (acct : Account)
      (amount : ℤ),
      c.getContract "MembershipManager" = .ok mmAddr →
      c.getContract "DataToken" = .ok dtAddr →
      c.account = some acct →
      (c.join_dao env amount).2 =
        [.sendTx "DataToken" "approve" [.s mmAddr, .i amount],
         .sendTx "MembershipManager" "joinDAO" [.i amount]]) ∧
    (∀ (c : Client) (env : Env) (drAddr dtAddr : String) (acct : Account)
      (dataset_id duration : ℤ),
      c.getContract "DatasetRegistry" = .ok drAddr →
      c.getContract "DataToken" = .ok dtAddr →
      c.account = some acct →
      (c.purchase_dataset_access env dataset_id duration).2 =
        [.contractRead "DatasetRegistry" "getDataset",
         .sendTx "DataToken" "approve"
           [.s drAddr, .i ((env.call "DatasetRegistry" "getDataset").getD 9 default).asInt],
         .sendTx "DatasetRegistry" "purchaseAccess" [.i dataset_id, .i duration]]) := by
  refine ⟨?_, ?_, ?_⟩
  · intro c env tmAddr dtAddr acct title descr tt rew rr rs rv dl pl acc ins htm hdt hacct
    unfold Client.create_task
    rw [htm, hdt]
    unfold Client.buildAndSendTx
    rw [hacct]
    rfl
  · intro c env mmAddr dtAddr acct amount hmm hdt hacct
    unfold Client.join_dao
    rw [hmm, hdt]
    unfold Client.buildAndSendTx
    rw [hacct]
    rfl
  · intro c env drAddr dtAddr acct did dur hdr hdt hacct
    unfold Client.purchase_dataset_access
    rw [hdr, hdt]
    unfold Client.buildAndSendTx
    rw [hacct]
    rfl

/-- C5 witness: the transaction-order theorem at a concrete configured
client and environment. -/
theorem operations_tx_order_witness :
    ((Client.mk (some ⟨"0xA", "pk"⟩) none none
        [("TaskManager", "0xT"), ("DataToken", "0xD"), ("MembershipManager", "0xM"),
         ("DatasetRegistry", "0xR")]).create_task
        ⟨fun _ _ => [], fun _ _ => ⟨[]⟩, none, ""⟩
        "t" "d" 0 5 2 3 4 100 0 "ac" "ic").2 =
      [.sendTx "DataToken" "approve" [.s "0xT", .i (5 * 3 + 2 * 3 * 4)],
       .sendTx "TaskManager" "createTask"
         [.s "t", .s "d", .i 0, .i 5, .i 2, .i 3, .i 4, .i 100, .i 0, .s "ac", .s "ic"]] ∧
    ((Client.mk (some ⟨"0xA", "pk"⟩) none none
        [("TaskManager", "0xT"), ("DataToken", "0xD"), ("MembershipManager", "0xM"),
         ("DatasetRegistry", "0xR")]).join_dao
        ⟨fun _ _ => [], fun _ _ => ⟨[]⟩, none, ""⟩ 7).2 =
      [.sendTx "DataToken" "approve" [.s "0xM", .i 7],
       .sendTx "MembershipManager" "joinDAO" [.i 7]] ∧
    ((Client.mk (some ⟨"0xA", "pk"⟩) none none
        [("TaskManager", "0xT"), ("DataToken", "0xD"), ("MembershipManager", "0xM"),
         ("DatasetRegistry", "0xR")]).purchase_dataset_access
        ⟨fun _ _ => [], fun _ _ => ⟨[]⟩, none, ""⟩ 9 0).2 =
      [.contractRead "DatasetRegistry" "getDataset",
       .sendTx "DataToken" "approve" [.s "0xR", .i 0],
       .sendTx "DatasetRegistry" "purchaseAccess" [.i 9, .i 0]] :=
  ⟨operations_tx_order.1 _ _ "0xT" "0xD" ⟨"0xA", "pk"⟩ "t" "d" 0 5 2 3 4 100 0 "ac" "ic"
      rfl rfl rfl,
   operations_tx_order.2.1 _ _ "0xM" "0xD" ⟨"0xA", "pk"⟩ 7 rfl rfl rfl,
   operations_tx_order.2.2 _ _ "0xR" "0xD" ⟨"0xA", "pk"⟩ 9 0 rfl rfl rfl⟩

/-- C4: the creating operations never raise on the log scan: under the
configuration needed to reach it they return their result mapping with
the identifier given by `extractEventId` over the creation receipt's
logs — and that scan yields `None` when no log from the expected
address parses as the expected event, and the id of the first log that
does otherwise. -/
theorem create_log_scan_best_effort :
    (∀ (c : Client) (env : Env) (tmAddr dtAddr : String) (acct : Account)
      (title descr : String) (tt rew rr rs rv dl pl : ℤ) (acc ins : String),
      c.getContract "TaskManager" = .ok tmAddr →
      c.getContract "DataToken" = .ok dtAddr →
      c.account = some acct →
      (c.create_task env title descr tt rew rr rs rv dl pl acc ins).1 =
        .ok ⟨env.receipt "DataToken" "approve", env.receipt "TaskManager" "createTask",
          extractEventId (env.receipt "TaskManager" "createTask").logs tmAddr
            "TaskCreated"⟩) ∧
    (∀ (c : Client) (env : Env) (drAddr : String) (acct : Account)
      (name descr mcid dcid : String) (enc : Bool) (accid : String) (at_ price : ℤ)
      (task_ids : List ℤ),
      c.getContract "DatasetRegistry" = .ok drAddr →
      c.account = some acct →
      (c.create_dataset env name descr mcid dcid enc accid at_ price task_ids).1 =
        .ok ⟨env.receipt "DatasetRegistry" "createDataset",
          extractEventId (env.receipt "DatasetRegistry" "createDataset").logs drAddr
            "DatasetCreated"⟩) ∧
    (∀ (c : Client) (env : Env) (gmAddr : String) (acct : Account)
      (title descr : String) (pt : ℤ) (targets : List String) (values : List ℤ)
      (calldatas signatures : List String),
      c.getContract "GovernanceModule" = .ok gmAddr →
      c.account = some acct →
      (c.create_proposal env title descr pt targets values calldatas signatures).1 =
        .ok ⟨env.receipt "GovernanceModule" "propose",
          extractEventId (env.receipt "GovernanceModule" "propose").logs gmAddr
            "ProposalCreated"⟩) ∧
    (∀ (logs : List Log) (a e : String),
      (∀ l ∈ logs, logMatches a e l = false) → extractEventId logs a e = none) ∧
    (∀ (logs : List Log) (a e : String) (log : Log),
      logs.find? (logMatches a e) = some log →
      extractEventId logs a e = log.event.map Prod.snd ∧
      (log.event.map Prod.snd).isSome = true) := by
  refine ⟨?_, ?_, ?_, ?_, ?_⟩
  · intro c env tmAddr dtAddr acct title descr tt rew rr rs rv dl pl acc ins htm hdt hacct
    unfold Client.create_task
    rw [htm, hdt]
    unfold Client.buildAndSendTx
    rw [hacct]
  · intro c env drAddr acct name descr mcid dcid enc accid at_ price tids hdr hacct
    unfold Client.create_dataset
    rw [hdr]
    unfold Client.buildAndSendTx
    rw [hacct]
  · intro c env gmAddr acct title descr pt targets values calldatas signatures hgm hacct
    unfold Client.create_proposal
    rw [hgm]
    unfold Client.buildAndSendTx
    rw [hacct]
  · intro logs a e h
    rw [extractEventId_eq_find, List.find?_eq_none.mpr (by intro x hx; simp [h x hx])]
    rfl
  · intro logs a e log hfind
    have hmatch := List.find?_some hfind
    have hev : ∃ p, log.event = some p := by
      cases hevv : log.event with
      | none => rw [logMatches, hevv] at hmatch; simp at hmatch
      | some p => exact ⟨p, rfl⟩
    obtain ⟨p, hp⟩ := hev
    constructor
    · rw [extractEventId_eq_find, hfind]
      rfl
    · rw [hp]
      rfl

/-- A configured client for the C4 witness. -/
def scanClient : Client :=
  ⟨some ⟨"0xA", "pk"⟩, none, none,
   [("TaskManager", "0xT"), ("DataToken", "0xD"), ("DatasetRegistry", "0xR")]⟩

/-- C4 witness environment: the `createTask` receipt's first two logs
are skipped (a foreign address carrying a parseable event, then a
matching address that fails to parse) before a matching log with id
42; every other receipt has no parseable log. -/
def scanEnv : Env :=
  ⟨fun _ _ => [],
   fun cn fn =>
     if cn == "TaskManager" && fn == "createTask" then
       ⟨[⟨"0xOther", some ("TaskCreated", 99)⟩, ⟨"0xT", none⟩,
         ⟨"0xt", some ("TaskCreated", 42)⟩]⟩
     else ⟨[⟨"0xR", none⟩]⟩, none, ""⟩

/-- C4 witness: the scan returns the first matching log's id 42 for
`create_task` and `None` for a `create_dataset` receipt with no
parseable log, raising in neither case. -/
theorem create_log_scan_best_effort_witness :
    (scanClient.create_task scanEnv "t" "d" 0 5 2 3 4 100 0 "ac" "ic").1 =
      .ok ⟨⟨[⟨"0xR", none⟩]⟩,
        ⟨[⟨"0xOther", some ("TaskCreated", 99)⟩, ⟨"0xT", none⟩,
          ⟨"0xt", some ("TaskCreated", 42)⟩]⟩, some 42⟩ ∧
    (scanClient.create_dataset scanEnv "n" "d" "mc" "dc" false "ac" 0 10 []).1 =
      .ok ⟨⟨[⟨"0xR", none⟩]⟩, none⟩ :=
  ⟨(create_log_scan_best_effort.1 scanClient scanEnv "0xT" "0xD" ⟨"0xA", "pk"⟩
      "t" "d" 0 5 2 3 4 100 0 "ac" "ic" rfl rfl rfl).trans (by rfl),
   (create_log_scan_best_effort.2.1 scanClient scanEnv "0xR" ⟨"0xA", "pk"⟩
      "n" "d" "mc" "dc" false "ac" 0 10 [] rfl rfl).trans (by rfl)⟩

/-- Dict insertion only introduces the inserted pair. -/
theorem dictInsert_mem (k v : String) (l : List (String × String))
    (p : String × String) (hp : p ∈ dictInsert k v l) : p = (k, v) ∨ p ∈ l := by
  unfold dictInsert at hp
  split at hp
  · obtain ⟨q, hq, hEq⟩ := List.mem_map.mp hp
    split at hEq
    · left; exact hEq.symm
    · right; rw [← hEq]; exact hq
  · rcases List.mem_append.mp hp with h | h
    · right; exact h
    · left; exact List.mem_singleton.mp h

/-- Dict insertion keeps every pair under a different key. -/
theorem dictInsert_mem_of_ne (k v k' v' : String) (l : List (String × String))
    (h : k' ≠ k) (hmem : (k', v') ∈ l) : (k', v') ∈ dictInsert k v l := by
  unfold dictInsert
  split
  · refine List.mem_map.mpr ⟨(k', v'), hmem, ?_⟩
    rw [if_neg]
    simpa using h
  · exact List.mem_append_left _ hmem

/-- Dict insertion makes its pair a member. -/
theorem dictInsert_mem_self (k v : String) (l : List (String × String)) :
    (k, v) ∈ dictInsert k v l := by
  by_cases hAny : l.any (fun p => p.1 == k) = true
  · rw [dictInsert, if_pos hAny]
    obtain ⟨q, hq, hq2⟩ := List.any_eq_true.mp hAny
    exact List.mem_map.mpr ⟨q, hq, by rw [if_pos hq2]⟩
  · rw [dictInsert, if_neg hAny]
    exact List.mem_append_right _ (List.mem_singleton.mpr rfl)

/-- Every pair surviving the init loop satisfies any property that
holds on the start state and on each inserted (name, non-zero address)
pair. -/
theorem foldl_initStep_values (renv : RegistryEnv) (names : List String)
    (acc : List (String × String)) (P : String × String → Prop)
    (hacc : ∀ p ∈ acc, P p)
    (hnew : ∀ name addr, renv.resolve name = some addr → addr ≠ zeroAddress →
      P (name, addr)) :
    ∀ p ∈ names.foldl (initStep renv) acc, P p := by
  induction names generalizing acc with
  | nil => exact hacc
  | cons n rest ih =>
    simp only [List.foldl_cons]
    apply ih
    intro p hp
    unfold initStep at hp
    split at hp
    · exact hacc p hp
    · rename_i addr hres
      split at hp
      · rename_i hz
        rcases dictInsert_mem n addr acc p hp with h | h
        · subst h; exact hnew n addr hres hz
        · exact hacc p h
      · exact hacc p hp

/-- A pair whose key is processed by none of the remaining names
survives the init loop. -/
theorem foldl_initStep_preserves (renv : RegistryEnv) (names : List String)
    (acc : List (String × String)) (p : String × String)
    (hp : p ∈ acc) (hnot : ∀ n ∈ names, n ≠ p.1) :
    p ∈ names.foldl (initStep renv) acc := by
  obtain ⟨p1, p2⟩ := p
  induction names generalizing acc with
  | nil => exact hp
  | cons n rest ih =>
    simp only [List.foldl_cons]
    apply ih
    · unfold initStep
      split
      · exact hp
      · rename_i a _hres
        split
        · exact dictInsert_mem_of_ne n a p1 p2 acc
            (fun hEq => hnot n (List.mem_cons_self n rest) (hEq ▸ rfl)) hp
        · exact hp
    · intro x hx; exact hnot x (List.mem_cons_of_mem _ hx)

/-- A name resolved to a non-zero address ends up in the contracts of
the init loop, whatever happens to the other names. -/
theorem foldl_initStep_mem (renv : RegistryEnv) (names : List String)
    (acc : List (String × String)) (m addr : String)
    (hm : m ∈ names) (hnd : names.Nodup)
    (hres : renv.resolve m = some addr) (hz : addr ≠ zeroAddress) :
    (m, addr) ∈ names.foldl (initStep renv) acc := by
  induction names generalizing acc with
  | nil => cases hm
  | cons n rest ih =>
    simp only [List.foldl_cons]
    rcases List.mem_cons.mp hm with hEq | hmem
    · subst hEq
      apply foldl_initStep_preserves
      · unfold initStep
        rw [hres]
        show (m, addr) ∈ if addr ≠ zeroAddress then dictInsert m addr acc else acc
        rw [if_pos hz]
        exact dictInsert_mem_self m addr acc
      · intro x hx hxm
        subst hxm
        exact (List.nodup_cons.mp hnd).1 hx
    · exact ih _ hmem (List.nodup_cons.mp hnd).2

/-- C10: when `_init_contracts` succeeds, (1) every contracts entry
other than `ContractRegistry` holds a non-zero address (given that the
entries present before the run already did), and (2) every name whose
registry lookup yields a non-zero address is initialized — a raised
lookup for one name is skipped and never aborts the rest of the
loop. -/
theorem initContracts_nonzero_and_skip (c : Client) (renv : RegistryEnv) (c' : Client)
    (hinv : ∀ p ∈ c.contracts, p.1 ≠ "ContractRegistry" → p.2 ≠ zeroAddress)
    (hok : c.initContracts renv = .ok c') :
    (∀ p ∈ c'.contracts, p.1 ≠ "ContractRegistry" → p.2 ≠ zeroAddress) ∧
    (∀ m ∈ contractNames, ∀ addr, renv.resolve m = some addr → addr ≠ zeroAddress →
      (m, addr) ∈ c'.contracts) := by
  unfold Client.initContracts at hok
  by_cases hreg : pyTruthy c.contract_registry_address = true
  · rw [hreg] at hok
    simp only [Bool.not_true, Bool.false_eq_true, if_false, Except.ok.injEq] at hok
    subst hok
    constructor
    · apply foldl_initStep_values
      · intro p hp hne
        rcases dictInsert_mem _ _ _ p hp with h | h
        · exact absurd (by rw [h]) hne
        · exact hinv p h hne
      · intro name addr _ hz _
        exact hz
    · intro m hm addr hres hz
      exact foldl_initStep_mem renv contractNames _ m addr hm (by decide) hres hz
  · rw [Bool.not_eq_true] at hreg
    rw [hreg] at hok
    simp at hok

/-- C10 witness client: a fresh client holding only a registry
address. -/
def initClient : Client := ⟨none, none, some "0xREG", []⟩

/-- C10 witness registry: `TaskManager` resolves to a non-zero address,
`DealClient` resolves to the zero address, and every other lookup
raises. -/
def initRegistry : RegistryEnv :=
  ⟨fun n =>
    if n == "TaskManager" then some "0xT"
    else if n == "DealClient" then some zeroAddress
    else none⟩

/-- C10 witness: with most lookups raising, initialization still
completes, stores the registry and the one non-zero resolved contract,
and every stored non-registry entry is non-zero. -/
theorem initContracts_nonzero_and_skip_witness :
    (∀ p ∈ (Client.mk none none (some "0xREG")
        [("ContractRegistry", "0xREG"), ("TaskManager", "0xT")]).contracts,
      p.1 ≠ "ContractRegistry" → p.2 ≠ zeroAddress) ∧
    (∀ m ∈ contractNames, ∀ addr, initRegistry.resolve m = some addr →
      addr ≠ zeroAddress →
      (m, addr) ∈ (Client.mk none none (some "0xREG")
        [("ContractRegistry", "0xREG"), ("TaskManager", "0xT")]).contracts) :=
  initContracts_nonzero_and_skip initClient initRegistry
    (Client.mk none none (some "0xREG")
      [("ContractRegistry", "0xREG"), ("TaskManager", "0xT")])
    (by intro p hp; cases hp) (by rfl)

end DataHubSpec
